import Mathlib

/-!
Shallow embedding of the authentication core and file-upload path logic of
the DocuSage backend (src/backend/app/auth_utils.py, routers/auth.py,
routers/files.py).

Conventions of the embedding:
- Time is modelled as `Int` seconds since an arbitrary epoch; `datetime.utcnow()`
  becomes an explicit `now : Int` parameter, and a `timedelta` becomes an `Int`
  number of seconds (`timedelta(minutes=m)` is `60 * m` seconds).
- A Python dict of JWT claims is an insertion-ordered association list
  `List (String × ClaimValue)`; `dict.get` and `dict.update` are mirrored by
  `dictGet` and `dictSet` (overwrite in place, append when the key is new).
- `HTTPException` carries the status code, the detail string, and whether the
  `WWW-Authenticate: Bearer` header was attached.
- Fallible operations return `Except HTTPException _`; database state is an
  explicit `List User` threaded through, with store-assigned ids and commit
  success passed as parameters.
- The third-party credential hasher (passlib/Argon2) and JWT codec (python-jose)
  are not part of this repository's sources; they are modelled from the spec
  where indicated, with random salt drawing made an explicit parameter.
-/

/-- A JWT claim value: a string (e.g. the `sub` email) or a timestamp (`exp`). -/
inductive ClaimValue where
  | str (s : String)
  | time (t : Int)
deriving DecidableEq, Repr

/-- A Python dict of claims, as an insertion-ordered association list. -/
abbrev Claims := List (String × ClaimValue)

/-- `d.get(k)`: value of the first entry with key `k`, if any. -/
def dictGet (d : Claims) (k : String) : Option ClaimValue :=
  (d.find? (fun p => p.1 == k)).map (fun p => p.2)

/-- `d.update(\x7bk: v\x7d)`: overwrite the value at `k` in place if present,
otherwise append `(k, v)` (Python dict insertion-order semantics). -/
def dictSet (d : Claims) (k : String) (v : ClaimValue) : Claims :=
  if d.any (fun p => p.1 == k) then
    d.map (fun p => if p.1 == k then (k, v) else p)
  else
    d ++ [(k, v)]

/-- fastapi.HTTPException as raised by this code: status code, detail message,
and whether the WWW-Authenticate Bearer header is attached. -/
structure HTTPException where
  status_code : Nat
  detail : String
  www_authenticate : Bool
deriving DecidableEq, Repr

/-- AuthSettings from auth_utils.py (environment defaults). -/
structure AuthSettings where
  SECRET_KEY : String
  ALGORITHM : String
  ACCESS_TOKEN_EXPIRE_MINUTES : Int
deriving DecidableEq, Repr

/-- The settings instance built at module load (default fallbacks). -/
def auth_settings : AuthSettings :=
  ⟨"please-change-this-to-a-long-random-string-in-next-sprint", "HS256", 10080⟩

/-- Modelled from the spec: the Credential Hasher (passlib's Argon2 CryptContext)
is a third-party library, not part of src/. Per spec §4.1 a hash embeds a
randomly drawn salt and a password-derived digest, and `verify` returns true
iff the password re-hashes to match under the parameters embedded in the hash.
The salt draw is made an explicit `Nat` parameter. -/
structure HashString where
  salt : Nat
  digest : String
deriving DecidableEq, Repr

/-- Modelled from the spec: the salt-keyed one-way digest inside an Argon2 hash
string. Only its injectivity in the password (for a fixed salt) is relied on,
matching the spec's "verify(p1, hash(p2)) is false for p1 != p2". -/
def argon2Digest (salt : Nat) (password : String) : String :=
  toString salt ++ "|" ++ password

/-- get_password_hash from auth_utils.py: pwd_context.hash(password), with the
library's random salt draw made explicit. -/
def get_password_hash (password : String) (salt : Nat) : HashString :=
  ⟨salt, argon2Digest salt password⟩

/-- verify_password from auth_utils.py: pwd_context.verify(plain, hashed). -/
def verify_password (plain_password : String) (hashed_password : HashString) : Bool :=
  argon2Digest hashed_password.salt plain_password == hashed_password.digest

/-- A well-formed signed token: the claims payload plus the key and algorithm it
was signed with (signature verification succeeds exactly against that key). -/
structure Token where
  claims : Claims
  key : String
  alg : String
deriving DecidableEq, Repr

/-- A bearer token string presented by a client: either a structurally valid
signed token or a malformed string. -/
inductive Bearer where
  | jwtToken (t : Token)
  | malformed (s : String)
deriving DecidableEq, Repr

/-- The jose JWTError hierarchy, as far as this code distinguishes it
(it catches the base class uniformly). -/
inductive JWTError where
  | malformedToken
  | invalidSignature
  | invalidAlgorithm
  | expiredSignature
deriving DecidableEq, Repr

/-- jwt.encode(claims, key, algorithm): signs the payload with the key. -/
def jwtEncode (claims : Claims) (key : String) (alg : String) : Token :=
  ⟨claims, key, alg⟩

/-- Modelled from the spec: jwt.decode of python-jose is a third-party library,
not part of src/. Per spec §4.2 `verify_and_decode` fails when the token is
structurally malformed, the signature does not match the key, the algorithm is
not among those allowed, or the embedded expiration timestamp is in the past
(strictly before `now`); otherwise it returns the claims. -/
def jwtDecode (b : Bearer) (key : String) (algorithms : List String) (now : Int) :
    Except JWTError Claims :=
  match b with
  | .malformed _ => .error .malformedToken
  | .jwtToken t =>
    if t.key ≠ key then .error .invalidSignature
    else if t.alg ∉ algorithms then .error .invalidAlgorithm
    else
      match dictGet t.claims "exp" with
      | some (.time e) => if e < now then .error .expiredSignature else .ok t.claims
      | some (.str _) => .error .malformedToken
      | none => .ok t.claims

/-- Python truthiness of an Optional[timedelta]: None and timedelta(0) are
falsy, every nonzero delta is truthy. -/
def timedeltaTruthy : Option Int → Bool
  | none => false
  | some d => d != 0

/-- The absolute expiration computed by create_access_token: `now + delta` when
the `if expires_delta:` branch is taken, otherwise `now` plus the configured
default (ACCESS_TOKEN_EXPIRE_MINUTES minutes). -/
def computeExpire (expires_delta : Option Int) (now : Int) : Int :=
  if timedeltaTruthy expires_delta then
    now + expires_delta.getD 0
  else
    now + 60 * auth_settings.ACCESS_TOKEN_EXPIRE_MINUTES

/-- Result of create_access_token: the caller's dict after the call (the source
copies it before mutating) together with the issued token. -/
structure IssueResult where
  callerDict : Claims
  token : Token
deriving DecidableEq, Repr

/-- create_access_token from auth_utils.py: copies `data`, sets the `exp` claim
to `now + expires_delta` (default TTL when the delta is absent or falsy), and
signs with the process-wide secret and algorithm. -/
def create_access_token (data : Claims) (expires_delta : Option Int) (now : Int) :
    IssueResult :=
  let to_encode := data
  let expire := computeExpire expires_delta now
  let to_encode := dictSet to_encode "exp" (.time expire)
  ⟨data, jwtEncode to_encode auth_settings.SECRET_KEY auth_settings.ALGORITHM⟩

/-- The 401 raised by auth_utils.get_current_user for every token-level failure. -/
def authUtilsCredentialsException : HTTPException :=
  ⟨401, "Authentication failed. Token is invalid or expired.", true⟩

/-- get_current_user from auth_utils.py: decodes the token with the secret key,
maps any JWTError to the uniform 401, requires a `sub` claim, and returns the
dict \x7b"email": email\x7d. -/
def AuthUtils.get_current_user (token : Bearer) (now : Int) :
    Except HTTPException Claims :=
  match jwtDecode token auth_settings.SECRET_KEY [auth_settings.ALGORITHM] now with
  | .error _ => .error authUtilsCredentialsException
  | .ok payload =>
    match dictGet payload "sub" with
    | none => .error authUtilsCredentialsException
    | some email => .ok [("email", email)]

/-- The users table row (models.py). -/
structure User where
  id : Nat
  email : String
  password_hash : HashString
deriving DecidableEq, Repr

/-- select(User).where(User.email == email) ... scalar_one_or_none(). -/
def find_by_email (db : List User) (email : String) : Option User :=
  db.find? (fun u => u.email == email)

/-- The resolved identity \x7b'email': user.email, 'id': user.id\x7d returned by the
router's get_current_user dependency. -/
structure AuthenticatedIdentity where
  email : String
  id : Nat
deriving DecidableEq, Repr

/-- The 401 raised by the router's get_current_user when the validated token
names no existing user. -/
def routerCredentialsException : HTTPException :=
  ⟨401, "Could not validate credentials", true⟩

/-- get_current_user from routers/auth.py (the `resolve` operation): validates
the token via AuthUtils.get_current_user (re-raising its 401), extracts the
validated email, looks the user up by email, and returns \x7bemail, id\x7d; a
missing user yields its own credentials_exception. A non-string subject never
matches a stored email. -/
def AuthRouter.get_current_user (token : Bearer) (db : List User) (now : Int) :
    Except HTTPException AuthenticatedIdentity :=
  match AuthUtils.get_current_user token now with
  | .error e => .error e
  | .ok token_data_dict =>
    match dictGet token_data_dict "email" with
    | none => .error routerCredentialsException
    | some (.time _) => .error routerCredentialsException
    | some (.str validated_email) =>
      match find_by_email db validated_email with
      | none => .error routerCredentialsException
      | some user => .ok ⟨user.email, user.id⟩

/-- The 400 raised by register_user when the email is already registered. -/
def duplicateUserException : HTTPException :=
  ⟨400, "Email already registered", false⟩

/-- The 500 raised by register_user when the commit of the new user fails. -/
def persistenceException : HTTPException :=
  ⟨500, "Registration failed due to a critical database error.", false⟩

deriving instance DecidableEq for Except

/-- Outcome of a register call: the HTTP result and the directory state after
the call. -/
structure RegisterOutcome where
  result : Except HTTPException Token
  db : List User
deriving DecidableEq, Repr

/-- register_user from routers/auth.py: fails 400 if the email exists; otherwise
hashes the password, creates the user, and commits. A failed commit rolls the
transaction back (directory unchanged) and fails 500; a successful commit
appends the new row (with the store-assigned id) and issues a token with
sub = email. The salt draw, assigned id, and commit success are explicit
parameters. -/
def register_user (email password : String) (db : List User)
    (salt newId : Nat) (commitOk : Bool) (now : Int) : RegisterOutcome :=
  match find_by_email db email with
  | some _ => ⟨.error duplicateUserException, db⟩
  | none =>
    let hashed_password := get_password_hash password salt
    let new_user : User := ⟨newId, email, hashed_password⟩
    if commitOk then
      ⟨.ok (create_access_token [("sub", .str new_user.email)] none now).token,
        db ++ [new_user]⟩
    else
      ⟨.error persistenceException, db⟩

/-- The 401 raised by login_for_access_token on either failure branch. -/
def invalidCredentialsException : HTTPException :=
  ⟨401, "Incorrect email or password", true⟩

/-- login_for_access_token from routers/auth.py: looks the user up by email,
fails 401 "Incorrect email or password" when absent, verifies the password
against the stored hash, fails with the identical 401 on mismatch, and
otherwise issues a token with sub = the stored email. -/
def login_for_access_token (email password : String) (db : List User) (now : Int) :
    Except HTTPException Token :=
  match find_by_email db email with
  | none => .error invalidCredentialsException
  | some user =>
    if verify_password password user.password_hash then
      .ok (create_access_token [("sub", .str user.email)] none now).token
    else
      .error invalidCredentialsException

/-- UPLOAD_DIR from routers/files.py, as a character list (filenames and paths
are modelled at the character level so that the single-character
str.replace calls are exact). -/
def UPLOAD_DIR : List Char := "user_uploads".data

/-- The content types accepted by upload_file. -/
def allowedContentTypes : List String :=
  ["application/pdf", "text/plain",
   "application/vnd.openxmlformats-officedocument.wordprocessingml.document"]

/-- s.replace(pat, "_") for a single-character pattern: each occurrence of the
character is replaced. -/
def replaceChar (pat repl : Char) (s : List Char) : List Char :=
  s.map (fun c => if c = pat then repl else c)

/-- The sanitized filename of upload_file:
file.filename.replace("/", "_").replace("\\", "_"). -/
def safe_filename (filename : List Char) : List Char :=
  replaceChar '\\' '_' (replaceChar '/' '_' filename)

/-- The response dict of a successful upload. -/
structure UploadResponse where
  message : String
  filename : List Char
  path : List Char
  user_id : Nat
deriving DecidableEq, Repr

/-- upload_file from routers/files.py: rejects disallowed content types with a
400, builds the storage path UPLOAD_DIR / str(current_user.id) / sanitized
filename, writes the bytes (success passed as a parameter; a write failure is
a 500), and answers with the path and the authenticated user's id. -/
def upload_file (content_type : String) (filename : List Char)
    (current_user : AuthenticatedIdentity) (saveOk : Bool) :
    Except HTTPException UploadResponse :=
  if content_type ∉ allowedContentTypes then
    .error ⟨400, "Unsupported file type: " ++ content_type ++
      ". Only PDF, TXT, or DOCX are allowed.", false⟩
  else
    let fname := safe_filename filename
    let file_path := UPLOAD_DIR ++ '/' :: (toString current_user.id).data
      ++ '/' :: fname
    if saveOk then
      .ok ⟨"File uploaded successfully", fname, file_path, current_user.id⟩
    else
      .error ⟨500, "Could not save file on the server.", false⟩

/-! ## Helper lemmas (shared) -/

/-- A fixed-salt Argon2 digest is injective in the password. -/
theorem argon2Digest_inj {s : Nat} {p1 p2 : String}
    (h : argon2Digest s p1 = argon2Digest s p2) : p1 = p2 := by
  unfold argon2Digest at h
  have hd := congrArg String.data h
  simp only [String.data_append] at hd
  exact String.ext (List.append_cancel_left hd)

/-- Every error of AuthUtils.get_current_user is the single uniform 401. -/
theorem authUtils_error_uniform {b : Bearer} {now : Int} {e : HTTPException}
    (h : AuthUtils.get_current_user b now = .error e) :
    e = authUtilsCredentialsException := by
  unfold AuthUtils.get_current_user at h
  split at h
  · exact ((Except.error.injEq _ _).mp h).symm
  · split at h
    · exact ((Except.error.injEq _ _).mp h).symm
    · exact absurd h (by simp)

/-- Appending on the right does not change an email lookup that already fails
on the left part. -/
theorem find_by_email_append {db l : List User} {e : String}
    (h : find_by_email db e = none) :
    find_by_email (db ++ l) e = find_by_email l e := by
  unfold find_by_email at *
  rw [List.find?_append, h, Option.none_or]

/-- Characters of a sanitized filename are never path separators. -/
theorem safe_filename_no_separator {fn : List Char} {c : Char}
    (h : c ∈ safe_filename fn) : c ≠ '/' ∧ c ≠ '\\' := by
  unfold safe_filename replaceChar at h
  rcases List.mem_map.mp h with ⟨b, hb, hbc⟩
  rcases List.mem_map.mp hb with ⟨a, _, hab⟩
  subst hbc; subst hab
  by_cases h1 : a = '/' <;> by_cases h2 : (if a = '/' then '_' else a) = '\\' <;>
    simp_all

/-! ## Claim theorems -/

/-- C2: a login for an absent email and a login for an existing user with a
non-verifying password fail with the very same InvalidCredentialsError value:
HTTP 401, detail "Incorrect email or password", Bearer challenge — the two
causes are indistinguishable to the caller. -/
theorem c2_login_failures_indistinguishable (email password : String)
    (db : List User) (now : Int) :
    (find_by_email db email = none →
      login_for_access_token email password db now = .error invalidCredentialsException) ∧
    (∀ u, find_by_email db email = some u →
      verify_password password u.password_hash = false →
      login_for_access_token email password db now = .error invalidCredentialsException) := by
  constructor
  · intro h
    unfold login_for_access_token
    rw [h]
  · intro u hu hv
    unfold login_for_access_token
    rw [hu]
    simp [hv]

/-- C2 witness: the two canonical failing logins of the spec, evaluated. -/
theorem c2_witness :
    login_for_access_token "nosuchuser@x.com" "anything" [] 0
        = .error invalidCredentialsException ∧
    login_for_access_token "a@b.com" "wrong"
        [⟨1, "a@b.com", get_password_hash "pw" 5⟩] 0
        = .error invalidCredentialsException :=
  ⟨(c2_login_failures_indistinguishable "nosuchuser@x.com" "anything" [] 0).1
      (by decide),
   (c2_login_failures_indistinguishable "a@b.com" "wrong"
      [⟨1, "a@b.com", get_password_hash "pw" 5⟩] 0).2
      ⟨1, "a@b.com", get_password_hash "pw" 5⟩ (by decide) (by decide)⟩

/-- C6: verification succeeds for the hashed password; fails for any other
password against that hash; and two hash calls with distinct salts yield
distinct hash strings that both verify against the original password. -/
theorem c6_hash_verify_roundtrip (p p1 p2 : String) (s s1 s2 : Nat) :
    verify_password p (get_password_hash p s) = true ∧
    (p1 ≠ p2 → verify_password p1 (get_password_hash p2 s) = false) ∧
    (s1 ≠ s2 → get_password_hash p s1 ≠ get_password_hash p s2 ∧
      verify_password p (get_password_hash p s1) = true ∧
      verify_password p (get_password_hash p s2) = true) := by
  refine ⟨?_, ?_, ?_⟩
  · simp [verify_password, get_password_hash]
  · intro hne
    unfold verify_password get_password_hash
    exact beq_eq_false_iff_ne.mpr (fun h => hne (argon2Digest_inj h))
  · intro hs
    refine ⟨?_, ?_, ?_⟩
    · intro h
      exact hs (congrArg HashString.salt h)
    · simp [verify_password, get_password_hash]
    · simp [verify_password, get_password_hash]

/-- C6 witness: concrete round trips with distinct passwords and salts. -/
theorem c6_witness :
    verify_password "pw" (get_password_hash "pw" 0) = true ∧
    verify_password "other" (get_password_hash "pw" 0) = false ∧
    (get_password_hash "pw" 0 ≠ get_password_hash "pw" 1 ∧
      verify_password "pw" (get_password_hash "pw" 0) = true ∧
      verify_password "pw" (get_password_hash "pw" 1) = true) :=
  ⟨(c6_hash_verify_roundtrip "pw" "other" "pw" 0 0 1).1,
   (c6_hash_verify_roundtrip "pw" "other" "pw" 0 0 1).2.1 (by decide),
   (c6_hash_verify_roundtrip "pw" "other" "pw" 0 0 1).2.2 (by decide)⟩

/-- C7: a token signed with the right key and algorithm, not yet expired, but
carrying no `sub` claim, is rejected by the token-validation step with the
uniform 401 credentials exception rather than yielding an identity. -/
theorem c7_missing_sub_rejected (claims : Claims) (now e : Int)
    (hsub : dictGet claims "sub" = none)
    (hexp : dictGet claims "exp" = some (ClaimValue.time e))
    (hfresh : now ≤ e) :
    AuthUtils.get_current_user
      (Bearer.jwtToken ⟨claims, auth_settings.SECRET_KEY, auth_settings.ALGORITHM⟩) now
      = .error authUtilsCredentialsException := by
  unfold AuthUtils.get_current_user jwtDecode
  have hlt : ¬ e < now := not_lt.mpr hfresh
  simp [hexp, hlt, hsub]

/-- C7 witness: a well-signed, unexpired token whose only claim is `exp`. -/
theorem c7_witness :
    AuthUtils.get_current_user
      (Bearer.jwtToken ⟨[("exp", ClaimValue.time 100)],
        auth_settings.SECRET_KEY, auth_settings.ALGORITHM⟩) 0
      = .error authUtilsCredentialsException :=
  c7_missing_sub_rejected [("exp", ClaimValue.time 100)] 0 100
    (by decide) (by decide) (by decide)

/-- C8: when the email is new but the commit of the new row fails, register
fails with the 500 PersistenceError and the directory is exactly as before the
call — no partial record remains. -/
theorem c8_failed_commit_atomic (email password : String) (db : List User)
    (salt newId : Nat) (now : Int)
    (habsent : find_by_email db email = none) :
    (register_user email password db salt newId false now).result
        = .error persistenceException ∧
    (register_user email password db salt newId false now).db = db ∧
    persistenceException.status_code = 500 := by
  unfold register_user
  rw [habsent]
  exact ⟨rfl, rfl, rfl⟩

/-- C5: registering an email a second time fails with the 400
DuplicateUserError, leaves the directory unchanged, and the stored hash for
that email is still the hash of the first registration's password. -/
theorem c5_duplicate_register (e p1 p2 : String) (db : List User)
    (s1 s2 id1 id2 : Nat) (cOk : Bool) (now1 now2 : Int)
    (habsent : find_by_email db e = none) :
    (register_user e p2 (register_user e p1 db s1 id1 true now1).db
        s2 id2 cOk now2).result = .error duplicateUserException ∧
    (register_user e p2 (register_user e p1 db s1 id1 true now1).db
        s2 id2 cOk now2).db = (register_user e p1 db s1 id1 true now1).db ∧
    (find_by_email (register_user e p2 (register_user e p1 db s1 id1 true now1).db
        s2 id2 cOk now2).db e).map User.password_hash
      = some (get_password_hash p1 s1) := by
  have hdb1 : (register_user e p1 db s1 id1 true now1).db
      = db ++ [⟨id1, e, get_password_hash p1 s1⟩] := by
    unfold register_user
    rw [habsent]
    simp
  have hfind : find_by_email (db ++ [⟨id1, e, get_password_hash p1 s1⟩]) e
      = some ⟨id1, e, get_password_hash p1 s1⟩ := by
    rw [find_by_email_append habsent]
    simp [find_by_email]
  rw [hdb1]
  unfold register_user
  rw [hfind]
  exact ⟨rfl, rfl, by rw [hfind]; rfl⟩

/-- C5 witness: register "a@b.com" with "pw", then again with "pw2". -/
theorem c5_witness :
    (register_user "a@b.com" "pw2" (register_user "a@b.com" "pw" [] 5 1 true 0).db
        6 2 true 0).result = .error duplicateUserException ∧
    (register_user "a@b.com" "pw2" (register_user "a@b.com" "pw" [] 5 1 true 0).db
        6 2 true 0).db = (register_user "a@b.com" "pw" [] 5 1 true 0).db ∧
    (find_by_email (register_user "a@b.com" "pw2"
        (register_user "a@b.com" "pw" [] 5 1 true 0).db 6 2 true 0).db
        "a@b.com").map User.password_hash
      = some (get_password_hash "pw" 5) :=
  c5_duplicate_register "a@b.com" "pw" "pw2" [] 5 6 1 2 true 0 0 (by decide)

/-- C1 (amended): every failing resolve is an HTTP 401 carrying the Bearer
challenge, but the message is not identical across causes: token-level
failures re-raise the auth_utils exception ("Authentication failed. Token is
invalid or expired.") while a validated token whose user no longer exists
yields the router's own "Could not validate credentials". -/
theorem c1_resolve_errors (b : Bearer) (db : List User) (now : Int)
    (e : HTTPException)
    (h : AuthRouter.get_current_user b db now = .error e) :
    e.status_code = 401 ∧ e.www_authenticate = true ∧
    ((AuthUtils.get_current_user b now = .error authUtilsCredentialsException ∧
        e = authUtilsCredentialsException) ∨
      ((∃ td, AuthUtils.get_current_user b now = .ok td) ∧
        e = routerCredentialsException)) := by
  unfold AuthRouter.get_current_user at h
  split at h
  next err heq =>
    have he : err = e := (Except.error.injEq _ _).mp h
    have hu : err = authUtilsCredentialsException := authUtils_error_uniform heq
    rw [← he, hu]
    rw [hu] at heq
    exact ⟨rfl, rfl, Or.inl ⟨heq, rfl⟩⟩
  next td heq =>
    have hok : ∃ td, AuthUtils.get_current_user b now = .ok td := ⟨td, heq⟩
    split at h
    · have he : routerCredentialsException = e := (Except.error.injEq _ _).mp h
      rw [← he]
      exact ⟨rfl, rfl, Or.inr ⟨hok, rfl⟩⟩
    · have he : routerCredentialsException = e := (Except.error.injEq _ _).mp h
      rw [← he]
      exact ⟨rfl, rfl, Or.inr ⟨hok, rfl⟩⟩
    · split at h
      · have he : routerCredentialsException = e := (Except.error.injEq _ _).mp h
        rw [← he]
        exact ⟨rfl, rfl, Or.inr ⟨hok, rfl⟩⟩
      · exact absurd h (by simp)

/-- C1 counterexample: two failing resolves — a malformed token over an empty
directory, and a well-signed unexpired token for a user who does not exist —
both return 401 but with different messages, so the messages are not
identical across the causes the claim lists. -/
theorem c1_counterexample :
    AuthRouter.get_current_user (Bearer.malformed "x") [] 0
        = .error authUtilsCredentialsException ∧
    AuthRouter.get_current_user
        (Bearer.jwtToken ⟨[("sub", ClaimValue.str "a@b.com"),
          ("exp", ClaimValue.time 100)],
          auth_settings.SECRET_KEY, auth_settings.ALGORITHM⟩) [] 0
        = .error routerCredentialsException ∧
    authUtilsCredentialsException.detail ≠ routerCredentialsException.detail := by
  refine ⟨by decide, by decide, by decide⟩

/-- C1 witness: the amended theorem applied to the malformed-token failure. -/
theorem c1_witness :
    authUtilsCredentialsException.status_code = 401 ∧
    authUtilsCredentialsException.www_authenticate = true ∧
    ((AuthUtils.get_current_user (Bearer.malformed "x") 0
          = .error authUtilsCredentialsException ∧
        authUtilsCredentialsException = authUtilsCredentialsException) ∨
      ((∃ td, AuthUtils.get_current_user (Bearer.malformed "x") 0 = .ok td) ∧
        authUtilsCredentialsException = routerCredentialsException)) :=
  c1_resolve_errors (Bearer.malformed "x") [] 0 authUtilsCredentialsException
    (by decide)

/-- C3 (amended): a zero ttl is falsy in the issuing branch, so such a token is
issued identically to one with no ttl at all (default 7-day expiry) — it is
not rejected while inside that window; and any token whose embedded expiration
is strictly before the verification time is rejected with the uniform
TokenInvalidError 401, as is any token whose signature or structure is bad. -/
theorem c3_expiry_behavior (d : Claims) (now : Int) :
    create_access_token d (some 0) now = create_access_token d none now ∧
    (∀ (t : Token) (e vnow : Int),
      dictGet t.claims "exp" = some (ClaimValue.time e) → e < vnow →
      AuthUtils.get_current_user (Bearer.jwtToken t) vnow
        = .error authUtilsCredentialsException) := by
  constructor
  · rfl
  · intro t e vnow hexp hlt
    unfold AuthUtils.get_current_user jwtDecode
    by_cases hk : t.key = auth_settings.SECRET_KEY
    · by_cases ha : t.alg = auth_settings.ALGORITHM
      · simp [hk, ha, hexp, hlt]
      · simp [hk, ha]
    · simp [hk]

/-- C3 counterexample: a token issued with a ttl of zero duration is accepted
by the validation step at issue time (it received the default expiry), instead
of being rejected with TokenInvalidError as the claim states. -/
theorem c3_counterexample :
    AuthUtils.get_current_user
      (Bearer.jwtToken
        (create_access_token [("sub", ClaimValue.str "a@b.com")] (some 0) 0).token) 0
      = .ok [("email", ClaimValue.str "a@b.com")] := by decide

/-- C3 witness: the zero-ttl issue coincides with the default issue, and a
token whose exp (-1) is before verification time 0 is rejected. -/
theorem c3_witness :
    create_access_token [] (some 0) 0 = create_access_token [] none 0 ∧
    AuthUtils.get_current_user
      (Bearer.jwtToken ⟨[("exp", ClaimValue.time (-1))],
        auth_settings.SECRET_KEY, auth_settings.ALGORITHM⟩) 0
      = .error authUtilsCredentialsException :=
  ⟨(c3_expiry_behavior [] 0).1,
   (c3_expiry_behavior [] 0).2
     ⟨[("exp", ClaimValue.time (-1))], auth_settings.SECRET_KEY,
       auth_settings.ALGORITHM⟩ (-1) 0 (by decide) (by decide)⟩

/-- C9 (amended): create_access_token leaves the caller's dict unchanged (it
copies it), and the issued claims are the entries of d with the exp entry set
— overwriting any exp value already present in place; when d carries no exp
key, the claims are exactly the entries of d followed by the computed exp. -/
theorem c9_issue_claims (d : Claims) (delta : Option Int) (now : Int) :
    (create_access_token d delta now).callerDict = d ∧
    (create_access_token d delta now).token.claims
      = dictSet d "exp" (ClaimValue.time (computeExpire delta now)) ∧
    ("exp" ∉ d.map Prod.fst →
      (create_access_token d delta now).token.claims
        = d ++ [("exp", ClaimValue.time (computeExpire delta now))]) := by
  refine ⟨rfl, rfl, ?_⟩
  intro hmem
  have hany : d.any (fun p => p.1 == "exp") = false := by
    rw [List.any_eq_false]
    intro p hp hq
    exact hmem (List.mem_map.mpr ⟨p, hp, (beq_iff_eq.mp hq)⟩)
  show dictSet d "exp" (ClaimValue.time (computeExpire delta now)) = _
  unfold dictSet
  rw [hany]
  simp

/-- C9 counterexample: for a dict that already carries an exp entry, the
issued claims are not the entries of d plus the computed exp entry — the old
entry is overwritten, not kept. -/
theorem c9_counterexample :
    (create_access_token [("exp", ClaimValue.time 0)] none 0).token.claims
      ≠ [("exp", ClaimValue.time 0),
         ("exp", ClaimValue.time (computeExpire none 0))] := by decide

/-- C9 witness: for the usual exp-free subject dict the caller's dict is
untouched and the claims are exactly the dict entries plus exp. -/
theorem c9_witness :
    (create_access_token [("sub", ClaimValue.str "a@b.com")] none 0).callerDict
        = [("sub", ClaimValue.str "a@b.com")] ∧
    (create_access_token [("sub", ClaimValue.str "a@b.com")] none 0).token.claims
        = dictSet [("sub", ClaimValue.str "a@b.com")] "exp"
            (ClaimValue.time (computeExpire none 0)) ∧
    ("exp" ∉ [("sub", ClaimValue.str "a@b.com")].map Prod.fst →
      (create_access_token [("sub", ClaimValue.str "a@b.com")] none 0).token.claims
        = [("sub", ClaimValue.str "a@b.com")]
            ++ [("exp", ClaimValue.time (computeExpire none 0))]) :=
  c9_issue_claims [("sub", ClaimValue.str "a@b.com")] none 0

/-- C4: resolving a token issued with sub = e, within the default validity
window, returns the {email, id} identity of the stored User with email e when
one exists, and fails with the 401 AuthenticationError when no User with
email e exists at resolution time. -/
theorem c4_resolve_after_issue (e : String) (db : List User) (tnow rnow : Int)
    (hfresh : rnow ≤ tnow + 60 * auth_settings.ACCESS_TOKEN_EXPIRE_MINUTES) :
    (∀ u, find_by_email db e = some u →
      AuthRouter.get_current_user
        (Bearer.jwtToken (create_access_token [("sub", ClaimValue.str e)] none tnow).token)
        db rnow = .ok ⟨u.email, u.id⟩) ∧
    (find_by_email db e = none →
      AuthRouter.get_current_user
        (Bearer.jwtToken (create_access_token [("sub", ClaimValue.str e)] none tnow).token)
        db rnow = .error routerCredentialsException) := by
  have hclaims : (create_access_token [("sub", ClaimValue.str e)] none tnow).token.claims
      = [("sub", ClaimValue.str e),
         ("exp", ClaimValue.time (computeExpire none tnow))] := by
    simp [create_access_token, dictSet, jwtEncode]
  have hlt : ¬ computeExpire none tnow < rnow := by
    unfold computeExpire timedeltaTruthy
    simpa using hfresh
  have hauth : AuthUtils.get_current_user
      (Bearer.jwtToken (create_access_token [("sub", ClaimValue.str e)] none tnow).token)
      rnow = .ok [("email", ClaimValue.str e)] := by
    unfold AuthUtils.get_current_user jwtDecode
    simp [create_access_token, jwtEncode, hclaims, hlt, dictGet, dictSet]
  constructor
  · intro u hu
    unfold AuthRouter.get_current_user
    rw [hauth]
    simp [dictGet]
    rw [hu]
  · intro hnone
    unfold AuthRouter.get_current_user
    rw [hauth]
    simp [dictGet]
    rw [hnone]

/-- C4 witness: a token for "a@b.com" resolves to the stored identity over a
directory holding that user, and fails over an empty directory. -/
theorem c4_witness :
    AuthRouter.get_current_user
      (Bearer.jwtToken (create_access_token [("sub", ClaimValue.str "a@b.com")] none 0).token)
      [⟨1, "a@b.com", get_password_hash "pw" 5⟩] 0
      = .ok ⟨"a@b.com", 1⟩ ∧
    AuthRouter.get_current_user
      (Bearer.jwtToken (create_access_token [("sub", ClaimValue.str "a@b.com")] none 0).token)
      [] 0 = .error routerCredentialsException :=
  ⟨(c4_resolve_after_issue "a@b.com" [⟨1, "a@b.com", get_password_hash "pw" 5⟩] 0 0
      (by decide)).1 ⟨1, "a@b.com", get_password_hash "pw" 5⟩ (by decide),
   (c4_resolve_after_issue "a@b.com" [] 0 0 (by decide)).2 (by decide)⟩

/-- C10: a successful authenticated upload stores under
UPLOAD_DIR/<user id>/<sanitized filename>, where the filename is the client's
with every "/" and "\" replaced by "_" (hence a single path segment free of
separators) and the id is the authenticated identity's. -/
theorem c10_upload_path (ct : String) (fn : List Char)
    (u : AuthenticatedIdentity) (saveOk : Bool) (r : UploadResponse)
    (h : upload_file ct fn u saveOk = .ok r) :
    r.filename = safe_filename fn ∧
    r.path = UPLOAD_DIR ++ '/' :: (toString u.id).data ++ '/' :: safe_filename fn ∧
    r.user_id = u.id ∧
    (∀ c ∈ safe_filename fn, c ≠ '/' ∧ c ≠ '\\') := by
  unfold upload_file at h
  split at h
  · exact absurd h (by simp)
  · split at h
    · have hr := (Except.ok.injEq _ _).mp h
      rw [← hr]
      exact ⟨rfl, rfl, rfl, fun c hc => safe_filename_no_separator hc⟩
    · exact absurd h (by simp)

/-- C10 witness: uploading "../a/b" as user id 1 yields the sanitized single
segment ".._a_b" under user_uploads/1/. -/
theorem c10_witness :
    (⟨"File uploaded successfully", ".._a_b".data,
        "user_uploads/1/.._a_b".data, 1⟩ : UploadResponse).filename
      = safe_filename "../a/b".data ∧
    (⟨"File uploaded successfully", ".._a_b".data,
        "user_uploads/1/.._a_b".data, 1⟩ : UploadResponse).path
      = UPLOAD_DIR ++ '/' :: (toString (⟨"a@b.com", 1⟩ : AuthenticatedIdentity).id).data
        ++ '/' :: safe_filename "../a/b".data ∧
    (⟨"File uploaded successfully", ".._a_b".data,
        "user_uploads/1/.._a_b".data, 1⟩ : UploadResponse).user_id
      = (⟨"a@b.com", 1⟩ : AuthenticatedIdentity).id ∧
    (∀ c ∈ safe_filename "../a/b".data, c ≠ '/' ∧ c ≠ '\\') :=
  c10_upload_path "text/plain" "../a/b".data ⟨"a@b.com", 1⟩ true
    ⟨"File uploaded successfully", ".._a_b".data, "user_uploads/1/.._a_b".data, 1⟩
    (by decide)

/-- C8 witness: a failed commit on an empty directory changes nothing. -/
theorem c8_witness :
    (register_user "a@b.com" "pw" [] 5 1 false 0).result
        = .error persistenceException ∧
    (register_user "a@b.com" "pw" [] 5 1 false 0).db = [] ∧
    persistenceException.status_code = 500 :=
  c8_failed_commit_atomic "a@b.com" "pw" [] 5 1 0 (by decide)
